import Mathlib

/- Shallow embedding of the commodity-sentiment dashboard client: the main
   component file (src/unnamed/part_000, a React component named App) and
   the Gemini service wrapper (src/src/services/gemini.ts).  React state
   hooks are modelled as an explicit state record; every handler and effect
   body becomes a pure function on that record.  The external inference
   call is modelled by an abstract outcome parameter: either a structured
   response (success) or a thrown error carrying an optional message
   string (failure). -/

namespace SentimentApp

/- ---------------------------------------------------------------------
   String utilities: JavaScript String.prototype.includes, modelled on the
   character list of a string.
   --------------------------------------------------------------------- -/

/-- Does the second list start with the first list? -/
def leadMatch : List Char → List Char → Bool
  | [], _ => true
  | _ :: _, [] => false
  | a :: as, b :: bs => a == b && leadMatch as bs

/-- Does the second list contain the first list as a contiguous segment? -/
def hasSeg (p : List Char) : List Char → Bool
  | [] => leadMatch p []
  | b :: bs => leadMatch p (b :: bs) || hasSeg p bs

/-- JavaScript s.includes(sub): substring containment on strings. -/
def containsSub (s sub : String) : Bool := hasSeg sub.data s.data

/-- JavaScript x || d for an optional string x: undefined and the empty
string are falsy, any other string is returned unchanged. -/
def orDefault (o : Option String) (d : String) : String :=
  match o with
  | some t => if t = "" then d else t
  | none => d

/- ---------------------------------------------------------------------
   Data model of src/src/services/gemini.ts.

   The TypeScript interface SentimentData declares historical, current,
   longTerm and drivers as required fields, but getCommoditySentiment
   builds its return value by spreading JSON.parse(response.text || "\x7b\x7d")
   without any validation, so at runtime any of those fields may be
   absent.  The embedding therefore gives the returned record Option
   fields, reflecting the actual values the function can produce.
   JSON numbers are modelled as integers.
   --------------------------------------------------------------------- -/

/-- One time-horizon sub-record: score, label, summary. -/
structure SentimentTimeline where
  score : Int
  label : String
  summary : String
deriving DecidableEq

/-- One driver record: factor, impact, description, evidence.  The impact
field is a plain string at runtime (the response schema types it STRING). -/
structure DriverRecord where
  factor : String
  impact : String
  description : String
  evidence : String
deriving DecidableEq

/-- One source citation: title and url. -/
structure SourceEntry where
  title : String
  url : String
deriving DecidableEq

/-- The projection of the JSON object produced by
JSON.parse(response.text || "\x7b\x7d") onto the fields that the code reads:
any JSON object yields such a record, with none for an absent field.
Parsing the text "\x7b\x7d" yields the all-none record. -/
structure ParsedData where
  historical : Option SentimentTimeline
  current : Option SentimentTimeline
  longTerm : Option SentimentTimeline
  drivers : Option (List DriverRecord)
deriving DecidableEq

/-- The record getCommoditySentiment actually returns: the parsed payload
fields plus the extracted sources list. -/
structure SentimentData where
  historical : Option SentimentTimeline
  current : Option SentimentTimeline
  longTerm : Option SentimentTimeline
  drivers : Option (List DriverRecord)
  sources : List SourceEntry
deriving DecidableEq

/-- chunk.web of a grounding chunk: optional title and uri. -/
structure WebInfo where
  title : Option String
  uri : Option String
deriving DecidableEq

/-- One grounding chunk of the grounding metadata. -/
structure GroundingChunk where
  web : Option WebInfo
deriving DecidableEq

/-- groundingMetadata of a response candidate. -/
structure GroundingMeta where
  groundingChunks : Option (List GroundingChunk)
deriving DecidableEq

/-- One response candidate. -/
structure Candidate where
  groundingMetadata : Option GroundingMeta
deriving DecidableEq

/-- The generateContent response, at the granularity the code reads it:
text is the JSON value the body text parses to (none when response.text
is undefined or empty, in which case the code parses "\x7b\x7d"), and
candidates is the optional candidate list. -/
structure GenResponse where
  text : Option ParsedData
  candidates : Option (List Candidate)
deriving DecidableEq

/-- The all-none payload: what JSON.parse gives on "\x7b\x7d". -/
def emptyParsed : ParsedData :=
  { historical := none, current := none, longTerm := none, drivers := none }

/-- The mapping applied to each grounding chunk:
\x7b title: chunk.web?.title || "Source", url: chunk.web?.uri || "#" \x7d. -/
def chunkSource (ch : GroundingChunk) : SourceEntry :=
  { title := orDefault (ch.web.bind WebInfo.title) "Source"
    url := orDefault (ch.web.bind WebInfo.uri) "#" }

/-- Sources extraction of getCommoditySentiment:
response.candidates?.[0]?.groundingMetadata?.groundingChunks?.map(...) || []. -/
def extractSources (r : GenResponse) : List SourceEntry :=
  match r.candidates.bind List.head? with
  | none => []
  | some cand =>
    match cand.groundingMetadata with
    | none => []
    | some gm =>
      match gm.groundingChunks with
      | none => []
      | some chunks => chunks.map chunkSource

/-- getCommoditySentiment, after the external call resolved to a response:
parse the body (or "\x7b\x7d" when the text is falsy), extract the sources,
and return the spread \x7b ...data, sources \x7d. -/
def getCommoditySentiment (r : GenResponse) : SentimentData :=
  let data := r.text.getD emptyParsed
  { historical := data.historical
    current := data.current
    longTerm := data.longTerm
    drivers := data.drivers
    sources := extractSources r }

/- ---------------------------------------------------------------------
   Data model of the App component (src/unnamed/part_000).
   --------------------------------------------------------------------- -/

/-- The context switch: the useState value typed India or Global. -/
inductive Ctx where
  | India
  | Global
deriving DecidableEq

/-- The string a context renders to in the template literal key. -/
def ctxName : Ctx → String
  | .India => "India"
  | .Global => "Global"

/-- COMMODITIES, the fixed subject list. -/
def COMMODITIES : List String := ["Wheat", "Cashew", "Maize", "Chana", "Sugar"]

/-- The cache key template literal commodity-ctx. -/
def entityKey (commodity : String) (ctx : Ctx) : String :=
  commodity ++ "-" ++ ctxName ctx

/-- The React state hooks of App as one record.  sentimentData models the
Record from string keys, as a total function into Option. -/
structure AppState where
  context : Ctx
  selectedCommodity : Option String
  loading : Bool
  sentimentData : String → Option SentimentData
  error : Option String
  expandedDriver : Option Nat
  refreshIndex : Nat

/-- The initial hook values of App. -/
def initialState : AppState :=
  { context := Ctx.India
    selectedCommodity := none
    loading := false
    sentimentData := fun _ => none
    error := none
    expandedDriver := none
    refreshIndex := 0 }

/-- Functional overwrite of one cache slot, as in
setSentimentData(prev => (\x7b ...prev, [key]: data \x7d)). -/
def cacheInsert (m : String → Option SentimentData) (key : String)
    (v : SentimentData) : String → Option SentimentData :=
  fun k => if k = key then some v else m k

/-- Outcome of one external getCommoditySentiment call as observed by the
dispatcher: the resolved data, or a thrown error carrying an optional
message string (err.message may be undefined). -/
inductive FetchOutcome where
  | success (data : SentimentData)
  | failure (message : Option String)
deriving DecidableEq

/-- The catch-branch message classification of fetchSentiment, lines 44-53:
an if / else-if chain on err.message with optional chaining, so an absent
message fails every test and falls to the template-literal branch, which
renders undefined. -/
def classifyMessage (msg : Option String) : String :=
  match msg with
  | some m =>
    if containsSub m "API_KEY" then
      "Gemini API Key is missing or invalid."
    else if containsSub m "network" || containsSub m "fetch" then
      "Network error: Unable to reach the AI service."
    else if containsSub m "429" then
      "Rate limit exceeded. Please wait."
    else
      "Error: " ++ m
  | none => "Error: undefined"

/-- The state mutations of fetchSentiment before the await: conditionally
setLoading(true), then unconditionally setError(null). -/
def fetchStart (s : AppState) (isPrefetch : Bool) : AppState :=
  let s1 := if isPrefetch then s else { s with loading := true }
  { s1 with error := none }

/-- The state mutations after the await resolves: on success write the
cache slot; on failure set the classified message when not prefetching. -/
def fetchResolve (s : AppState) (key : String) (isPrefetch : Bool)
    (o : FetchOutcome) : AppState :=
  match o with
  | .success d => { s with sentimentData := cacheInsert s.sentimentData key d }
  | .failure e =>
    if isPrefetch then s else { s with error := some (classifyMessage e) }

/-- The finally block: conditionally setLoading(false). -/
def fetchFinally (s : AppState) (isPrefetch : Bool) : AppState :=
  if isPrefetch then s else { s with loading := false }

/-- fetchSentiment(commodity, ctx, isPrefetch) run to completion with the
given call outcome. -/
def fetchSentiment (s : AppState) (commodity : String) (ctx : Ctx)
    (isPrefetch : Bool) (o : FetchOutcome) : AppState :=
  fetchFinally
    (fetchResolve (fetchStart s isPrefetch) (entityKey commodity ctx)
      isPrefetch o)
    isPrefetch

/- ---------------------------------------------------------------------
   The three dispatch drivers of App: the prefetch effect, the background
   refresh interval, and the click handler.  Each models one handler or
   effect body; the outcome of each issued call is supplied by an oracle.
   Drivers also return a log of the calls they issue, each entry recording
   (commodity, ctx, isPrefetch) as passed to fetchSentiment.
   --------------------------------------------------------------------- -/

/-- One dispatch record: the argument triple of a fetchSentiment call. -/
structure DispatchCall where
  commodity : String
  ctx : Ctx
  isPrefetch : Bool
deriving DecidableEq

/-- The body of the initialFetch loop over a commodity list: one awaited
non-foreground dispatch per commodity, in order.  The oracle f gives the
outcome of the k-th call. -/
def warmList (ctx : Ctx) (f : Nat → FetchOutcome) :
    List String → Nat → AppState → AppState × List DispatchCall
  | [], _, s => (s, [])
  | c :: cs, k, s =>
    let s1 := fetchSentiment s c ctx true (f k)
    let r := warmList ctx f cs (k + 1) s1
    (r.1, ⟨c, ctx, true⟩ :: r.2)

/-- The initialFetch effect body: the loop over COMMODITIES under the
current context, run whenever the context dependency changes. -/
def warmAll (s : AppState) (ctx : Ctx) (f : Nat → FetchOutcome) :
    AppState × List DispatchCall :=
  warmList ctx f COMMODITIES 0 s

/-- One firing of the background refresh interval: compute
nextIndex = (refreshIndex + 1) % COMMODITIES.length, store it, and issue a
non-foreground dispatch for COMMODITIES[nextIndex] under the current
context.  Returns the new state and the issued call. -/
def tick (s : AppState) (o : FetchOutcome) : AppState × DispatchCall :=
  let nextIndex := (s.refreshIndex + 1) % COMMODITIES.length
  let subject := COMMODITIES.getD nextIndex ""
  (fetchSentiment { s with refreshIndex := nextIndex } subject s.context true o,
   ⟨subject, s.context, true⟩)

/-- A run of consecutive interval firings, one outcome per tick, logging
the issued calls in order. -/
def runTicks : AppState → List FetchOutcome → AppState × List DispatchCall
  | s, [] => (s, [])
  | s, o :: os =>
    let r1 := tick s o
    let r2 := runTicks r1.1 os
    (r2.1, r1.2 :: r2.2)

/-- handleCommodityClick(commodity): select it, reset expandedDriver, and
issue a foreground dispatch exactly when the cache slot for
(commodity, context) is falsy.  Returns the new state and the issued call,
if any. -/
def handleCommodityClick (s : AppState) (commodity : String)
    (o : FetchOutcome) : AppState × Option DispatchCall :=
  let s1 := { s with selectedCommodity := some commodity,
                     expandedDriver := none }
  if s.sentimentData (entityKey commodity s.context) = none then
    (fetchSentiment s1 commodity s.context false o,
     some ⟨commodity, s.context, false⟩)
  else
    (s1, none)

/-- currentData: the cache slot of the selected commodity under the
current context, or none when nothing is selected. -/
def currentData (s : AppState) : Option SentimentData :=
  match s.selectedCommodity with
  | some c => s.sentimentData (entityKey c s.context)
  | none => none

/- ---------------------------------------------------------------------
   The primitive state transitions of App, as one step relation: the two
   context buttons, the card click, the back button (deselect), the driver
   toggle, a single dispatch (covering prefetch-loop iterations and the
   retry button), and a background tick.
   --------------------------------------------------------------------- -/

/-- One primitive App transition. -/
inductive Step where
  | dispatch (commodity : String) (ctx : Ctx) (isPrefetch : Bool)
      (o : FetchOutcome)
  | click (commodity : String) (o : FetchOutcome)
  | setCtx (ctx : Ctx)
  | deselect
  | toggleDriver (idx : Nat)
  | bgTick (o : FetchOutcome)

/-- The state after one primitive transition. -/
def step (s : AppState) : Step → AppState
  | .dispatch c ctx pre o => fetchSentiment s c ctx pre o
  | .click c o => (handleCommodityClick s c o).1
  | .setCtx ctx => { s with context := ctx }
  | .deselect => { s with selectedCommodity := none }
  | .toggleDriver idx =>
    { s with expandedDriver :=
        if s.expandedDriver = some idx then none else some idx }
  | .bgTick o => (tick s o).1

/-- The successful cache write a step performs at key k, if any: only a
dispatch whose call succeeded and whose entity key is k writes, and a
click only dispatches on a cache miss. -/
def stepKeyWrite (s : AppState) (st : Step) (k : String) :
    Option SentimentData :=
  match st with
  | .dispatch c ctx _ (.success d) =>
    if k = entityKey c ctx then some d else none
  | .dispatch _ _ _ (.failure _) => none
  | .click c (.success d) =>
    if s.sentimentData (entityKey c s.context) = none ∧
        k = entityKey c s.context then some d else none
  | .click _ (.failure _) => none
  | .setCtx _ => none
  | .deselect => none
  | .toggleDriver _ => none
  | .bgTick (.success d) =>
    if k = entityKey
        (COMMODITIES.getD ((s.refreshIndex + 1) % COMMODITIES.length) "")
        s.context then some d else none
  | .bgTick (.failure _) => none

/- ---------------------------------------------------------------------
   Derived definitions used by the verification: bounds checks on the
   stored records, the cursor trail of consecutive ticks, and concrete
   sample values.
   --------------------------------------------------------------------- -/

/-- Is an optional time-horizon sub-record present with a score inside
the closed interval from -100 to 100? -/
def scoreInRange (o : Option SentimentTimeline) : Bool :=
  match o with
  | some tl => decide (-100 ≤ tl.score) && decide (tl.score ≤ 100)
  | none => false

/-- Are all three horizon sub-records of a returned record present with
scores inside the interval? -/
def horizonsOk (d : SentimentData) : Bool :=
  scoreInRange d.historical && scoreInRange d.current && scoreInRange d.longTerm

/-- Are all three horizon sub-records of a parsed payload present with
scores inside the interval? -/
def payloadOk (p : ParsedData) : Bool :=
  scoreInRange p.historical && scoreInRange p.current && scoreInRange p.longTerm

/-- The list of cursor values taken by n consecutive interval firings
starting from cursor r: each firing replaces the cursor by its successor
modulo the commodity count. -/
def cursorTrail (r : Nat) : Nat → List Nat
  | 0 => []
  | n + 1 =>
    ((r + 1) % COMMODITIES.length) ::
      cursorTrail ((r + 1) % COMMODITIES.length) n

/-- A concrete well-formed sentiment record. -/
def sampleData : SentimentData :=
  { historical := some ⟨10, "Bullish", "Rose on export demand."⟩
    current := some ⟨5, "Neutral", "Flat this week."⟩
    longTerm := some ⟨-3, "Bearish", "Supply recovering."⟩
    drivers := some []
    sources := [] }

/-- The initial state with a foreground error already displayed. -/
def errState : AppState :=
  { initialState with error := some "previous failure" }

/-- The initial state with the Wheat-India slot already cached. -/
def cachedState : AppState :=
  { initialState with
      sentimentData :=
        cacheInsert initialState.sentimentData (entityKey "Wheat" Ctx.India)
          sampleData }

/-- A type-correct response payload whose historical score lies outside
the documented interval. -/
def badPayload : ParsedData :=
  { historical := some ⟨150, "Extremely Bullish", "Off the chart."⟩
    current := some ⟨10, "Neutral", "Calm."⟩
    longTerm := some ⟨0, "Neutral", "Steady."⟩
    drivers := some [] }

/-- A response carrying the out-of-range payload and no grounding data. -/
def badResponse : GenResponse :=
  { text := some badPayload, candidates := none }

/- ---------------------------------------------------------------------
   Helper lemmas: field frames of one dispatch.
   --------------------------------------------------------------------- -/

theorem commodities_length : COMMODITIES.length = 5 := rfl

@[simp] theorem fetchSentiment_context (s : AppState) (c : String) (ctx : Ctx)
    (pre : Bool) (o : FetchOutcome) :
    (fetchSentiment s c ctx pre o).context = s.context := by
  cases pre <;> cases o <;>
    simp [fetchSentiment, fetchStart, fetchResolve, fetchFinally]

@[simp] theorem fetchSentiment_selectedCommodity (s : AppState) (c : String)
    (ctx : Ctx) (pre : Bool) (o : FetchOutcome) :
    (fetchSentiment s c ctx pre o).selectedCommodity = s.selectedCommodity := by
  cases pre <;> cases o <;>
    simp [fetchSentiment, fetchStart, fetchResolve, fetchFinally]

@[simp] theorem fetchSentiment_expandedDriver (s : AppState) (c : String)
    (ctx : Ctx) (pre : Bool) (o : FetchOutcome) :
    (fetchSentiment s c ctx pre o).expandedDriver = s.expandedDriver := by
  cases pre <;> cases o <;>
    simp [fetchSentiment, fetchStart, fetchResolve, fetchFinally]

@[simp] theorem fetchSentiment_refreshIndex (s : AppState) (c : String)
    (ctx : Ctx) (pre : Bool) (o : FetchOutcome) :
    (fetchSentiment s c ctx pre o).refreshIndex = s.refreshIndex := by
  cases pre <;> cases o <;>
    simp [fetchSentiment, fetchStart, fetchResolve, fetchFinally]

@[simp] theorem fetchSentiment_loading_prefetch (s : AppState) (c : String)
    (ctx : Ctx) (o : FetchOutcome) :
    (fetchSentiment s c ctx true o).loading = s.loading := by
  cases o <;> simp [fetchSentiment, fetchStart, fetchResolve, fetchFinally]

@[simp] theorem fetchSentiment_cache_success (s : AppState) (c : String)
    (ctx : Ctx) (pre : Bool) (d : SentimentData) :
    (fetchSentiment s c ctx pre (FetchOutcome.success d)).sentimentData =
      cacheInsert s.sentimentData (entityKey c ctx) d := by
  cases pre <;> simp [fetchSentiment, fetchStart, fetchResolve, fetchFinally]

@[simp] theorem fetchSentiment_cache_failure (s : AppState) (c : String)
    (ctx : Ctx) (pre : Bool) (e : Option String) :
    (fetchSentiment s c ctx pre (FetchOutcome.failure e)).sentimentData =
      s.sentimentData := by
  cases pre <;> simp [fetchSentiment, fetchStart, fetchResolve, fetchFinally]

theorem cacheInsert_preserves (m : String → Option SentimentData)
    (key k : String) (v : SentimentData) (h : m k ≠ none) :
    cacheInsert m key v k ≠ none := by
  by_cases hk : k = key <;> simp [cacheInsert, hk, h]

/- ---------------------------------------------------------------------
   Helper lemmas: the background tick and its cursor trail.
   --------------------------------------------------------------------- -/

theorem tick_cursor (s : AppState) (o : FetchOutcome) :
    (tick s o).1.refreshIndex = (s.refreshIndex + 1) % COMMODITIES.length := by
  simp [tick]

theorem tick_context (s : AppState) (o : FetchOutcome) :
    (tick s o).1.context = s.context := by
  simp [tick]

theorem tick_call (s : AppState) (o : FetchOutcome) :
    (tick s o).2 =
      ⟨COMMODITIES.getD ((s.refreshIndex + 1) % COMMODITIES.length) "",
       s.context, true⟩ := rfl

theorem tick_cache (s : AppState) (o : FetchOutcome) :
    (tick s o).1.sentimentData =
      match o with
      | .success d =>
        cacheInsert s.sentimentData
          (entityKey
            (COMMODITIES.getD ((s.refreshIndex + 1) % COMMODITIES.length) "")
            s.context) d
      | .failure _ => s.sentimentData := by
  cases o <;> simp [tick]

theorem cursorTrail_succ (r n : Nat) :
    cursorTrail r (n + 1) =
      ((r + 1) % COMMODITIES.length) ::
        cursorTrail ((r + 1) % COMMODITIES.length) n := rfl

theorem runTicks_log : ∀ (os : List FetchOutcome) (s : AppState),
    (runTicks s os).2 =
      (cursorTrail s.refreshIndex os.length).map
        (fun i => ⟨COMMODITIES.getD i "", s.context, true⟩) := by
  intro os
  induction os with
  | nil => intro s; rfl
  | cons o os ih =>
    intro s
    show (tick s o).2 :: (runTicks (tick s o).1 os).2 = _
    rw [ih (tick s o).1, tick_cursor, tick_context, tick_call,
      List.length_cons, cursorTrail_succ, List.map_cons]

theorem cursorTrail_closed : ∀ (n r : Nat),
    cursorTrail r n =
      (List.range n).map (fun j => (r + 1 + j) % COMMODITIES.length) := by
  intro n
  induction n with
  | zero => intro r; rfl
  | succ n ih =>
    intro r
    rw [cursorTrail, ih, List.range_succ_eq_map, List.map_cons, List.map_map]
    congr 1
    have hfg : (fun j => ((r + 1) % COMMODITIES.length + 1 + j) %
          COMMODITIES.length) =
        ((fun j => (r + 1 + j) % COMMODITIES.length) ∘ Nat.succ) := by
      funext j
      show ((r + 1) % COMMODITIES.length + 1 + j) % COMMODITIES.length =
        (r + 1 + Nat.succ j) % COMMODITIES.length
      simp only [commodities_length]
      omega
    rw [hfg]

theorem cursorTrail_perm (r : Nat) :
    (cursorTrail r COMMODITIES.length).Perm (List.range COMMODITIES.length) := by
  rw [cursorTrail_closed]
  have hmod : (fun j => (r + 1 + j) % COMMODITIES.length) =
      (fun j => (r % COMMODITIES.length + 1 + j) % COMMODITIES.length) := by
    funext j
    simp only [commodities_length]
    omega
  rw [hmod]
  have hr : r % COMMODITIES.length < 5 := by
    simp only [commodities_length]
    omega
  have hall : ∀ m, m < 5 →
      ((List.range COMMODITIES.length).map
        (fun j => (m + 1 + j) % COMMODITIES.length)).Perm
        (List.range COMMODITIES.length) := by decide
  exact hall _ hr

theorem runTicks_commodities_perm (s : AppState) (os : List FetchOutcome)
    (h : os.length = COMMODITIES.length) :
    ((runTicks s os).2.map DispatchCall.commodity).Perm COMMODITIES := by
  rw [runTicks_log, h, List.map_map]
  have hcomp : (DispatchCall.commodity ∘
      fun i => (⟨COMMODITIES.getD i "", s.context, true⟩ : DispatchCall)) =
      fun i => COMMODITIES.getD i "" := rfl
  rw [hcomp]
  have hperm := (cursorTrail_perm s.refreshIndex).map
    (fun i => COMMODITIES.getD i "")
  have hco : (List.range COMMODITIES.length).map
      (fun i => COMMODITIES.getD i "") = COMMODITIES := rfl
  exact hco ▸ hperm

/- ---------------------------------------------------------------------
   Helper lemmas: the prefetch loop.
   --------------------------------------------------------------------- -/

theorem warmList_log (ctx : Ctx) (f : Nat → FetchOutcome) :
    ∀ (cs : List String) (k : Nat) (s : AppState),
    (warmList ctx f cs k s).2 = cs.map (fun c => ⟨c, ctx, true⟩) := by
  intro cs
  induction cs with
  | nil => intro k s; rfl
  | cons c cs ih =>
    intro k s
    show (⟨c, ctx, true⟩ : DispatchCall) ::
      (warmList ctx f cs (k + 1) (fetchSentiment s c ctx true (f k))).2 = _
    rw [ih, List.map_cons]

theorem warmList_loading (ctx : Ctx) (f : Nat → FetchOutcome) :
    ∀ (cs : List String) (k : Nat) (s : AppState),
    (warmList ctx f cs k s).1.loading = s.loading := by
  intro cs
  induction cs with
  | nil => intro k s; rfl
  | cons c cs ih =>
    intro k s
    show (warmList ctx f cs (k + 1)
      (fetchSentiment s c ctx true (f k))).1.loading = s.loading
    rw [ih, fetchSentiment_loading_prefetch]

theorem warmList_selectedCommodity (ctx : Ctx) (f : Nat → FetchOutcome) :
    ∀ (cs : List String) (k : Nat) (s : AppState),
    (warmList ctx f cs k s).1.selectedCommodity = s.selectedCommodity := by
  intro cs
  induction cs with
  | nil => intro k s; rfl
  | cons c cs ih =>
    intro k s
    show (warmList ctx f cs (k + 1)
      (fetchSentiment s c ctx true (f k))).1.selectedCommodity =
      s.selectedCommodity
    rw [ih, fetchSentiment_selectedCommodity]

theorem warmList_context (ctx : Ctx) (f : Nat → FetchOutcome) :
    ∀ (cs : List String) (k : Nat) (s : AppState),
    (warmList ctx f cs k s).1.context = s.context := by
  intro cs
  induction cs with
  | nil => intro k s; rfl
  | cons c cs ih =>
    intro k s
    show (warmList ctx f cs (k + 1)
      (fetchSentiment s c ctx true (f k))).1.context = s.context
    rw [ih, fetchSentiment_context]

theorem warmList_cache_mono (ctx : Ctx) (f : Nat → FetchOutcome) (k : String) :
    ∀ (cs : List String) (j : Nat) (s : AppState),
    s.sentimentData k ≠ none →
    (warmList ctx f cs j s).1.sentimentData k ≠ none := by
  intro cs
  induction cs with
  | nil => intro j s h; exact h
  | cons c cs ih =>
    intro j s h
    show (warmList ctx f cs (j + 1)
      (fetchSentiment s c ctx true (f j))).1.sentimentData k ≠ none
    apply ih
    cases hf : f j with
    | success d =>
      rw [fetchSentiment_cache_success]
      exact cacheInsert_preserves _ _ _ _ h
    | failure e =>
      rw [fetchSentiment_cache_failure]
      exact h

theorem runTicks_cache_mono (k : String) :
    ∀ (os : List FetchOutcome) (s : AppState),
    s.sentimentData k ≠ none →
    (runTicks s os).1.sentimentData k ≠ none := by
  intro os
  induction os with
  | nil => intro s h; exact h
  | cons o os ih =>
    intro s h
    show (runTicks (tick s o).1 os).1.sentimentData k ≠ none
    apply ih
    rw [tick_cache]
    cases o with
    | success d => exact cacheInsert_preserves _ _ _ _ h
    | failure e => exact h

/- ---------------------------------------------------------------------
   Claim C1.
   --------------------------------------------------------------------- -/

/-- Claim C1, as stated, is false at a concrete input: a failing
non-foreground dispatch run from a state whose foreground error is set
leaves the error null, not at the value it had before the dispatch,
because fetchSentiment calls setError(null) unconditionally before the
external call. -/
theorem claim1_counterexample :
    (fetchSentiment errState "Wheat" Ctx.India true
        (FetchOutcome.failure (some "boom"))).error ≠ errState.error := by
  decide

/-- Claim C1 (amended): a failing non-foreground dispatch leaves the
in-flight flag, the cache, the selection, the expanded-driver state, the
cursor and the context unchanged, and leaves the error state null: the
error is unconditionally cleared when the dispatch is issued, so it equals
its prior value only when that prior value was already null. -/
theorem claim1_background_failure_frame (s : AppState) (c : String)
    (ctx : Ctx) (e : Option String) :
    (fetchSentiment s c ctx true (FetchOutcome.failure e)).loading =
      s.loading ∧
    (fetchSentiment s c ctx true (FetchOutcome.failure e)).error = none ∧
    (fetchSentiment s c ctx true (FetchOutcome.failure e)).sentimentData =
      s.sentimentData ∧
    (fetchSentiment s c ctx true (FetchOutcome.failure e)).selectedCommodity =
      s.selectedCommodity ∧
    (fetchSentiment s c ctx true (FetchOutcome.failure e)).expandedDriver =
      s.expandedDriver ∧
    (fetchSentiment s c ctx true (FetchOutcome.failure e)).refreshIndex =
      s.refreshIndex ∧
    (fetchSentiment s c ctx true (FetchOutcome.failure e)).context =
      s.context := by
  refine ⟨?_, ?_, ?_, ?_, ?_, ?_, ?_⟩ <;>
    simp [fetchSentiment, fetchStart, fetchResolve, fetchFinally]

/- ---------------------------------------------------------------------
   Claim C2.
   --------------------------------------------------------------------- -/

/-- Claim C2: a failing foreground dispatch stores exactly the classified
message as the error state, regardless of the prior error, clears the
in-flight flag, and leaves the cache untouched; the classification lands
in one of the four taxonomy classes, with the API_KEY test first, then
network or fetch, then 429, and anything else rendered as the raw message
after the Error marker. -/
theorem claim2_foreground_failure_classification (s : AppState) (c : String)
    (ctx : Ctx) (e : Option String) :
    (fetchSentiment s c ctx false (FetchOutcome.failure e)).error =
      some (classifyMessage e) ∧
    (fetchSentiment s c ctx false (FetchOutcome.failure e)).loading = false ∧
    (fetchSentiment s c ctx false (FetchOutcome.failure e)).sentimentData =
      s.sentimentData ∧
    (classifyMessage e = "Gemini API Key is missing or invalid." ∨
      classifyMessage e = "Network error: Unable to reach the AI service." ∨
      classifyMessage e = "Rate limit exceeded. Please wait." ∨
      ∃ raw, classifyMessage e = "Error: " ++ raw) ∧
    (∀ m, e = some m → containsSub m "API_KEY" = true →
      classifyMessage e = "Gemini API Key is missing or invalid.") ∧
    (∀ m, e = some m → containsSub m "API_KEY" = false →
      (containsSub m "network" || containsSub m "fetch") = true →
      classifyMessage e = "Network error: Unable to reach the AI service.") ∧
    (∀ m, e = some m → containsSub m "API_KEY" = false →
      (containsSub m "network" || containsSub m "fetch") = false →
      containsSub m "429" = true →
      classifyMessage e = "Rate limit exceeded. Please wait.") ∧
    (∀ m, e = some m → containsSub m "API_KEY" = false →
      (containsSub m "network" || containsSub m "fetch") = false →
      containsSub m "429" = false →
      classifyMessage e = "Error: " ++ m) := by
  refine ⟨?_, ?_, ?_, ?_, ?_, ?_, ?_, ?_⟩
  · simp [fetchSentiment, fetchStart, fetchResolve, fetchFinally]
  · simp [fetchSentiment, fetchStart, fetchResolve, fetchFinally]
  · simp [fetchSentiment, fetchStart, fetchResolve, fetchFinally]
  · cases e with
    | none => exact Or.inr (Or.inr (Or.inr ⟨"undefined", rfl⟩))
    | some m =>
      cases h1 : containsSub m "API_KEY" with
      | true => exact Or.inl (by simp [classifyMessage, h1])
      | false =>
        cases h2 : containsSub m "network" || containsSub m "fetch" with
        | true => exact Or.inr (Or.inl (by simp [classifyMessage, h1, h2]))
        | false =>
          cases h3 : containsSub m "429" with
          | true =>
            exact Or.inr (Or.inr (Or.inl (by simp [classifyMessage, h1, h2, h3])))
          | false =>
            exact Or.inr (Or.inr (Or.inr
              ⟨m, by simp [classifyMessage, h1, h2, h3]⟩))
  · intro m hm h1
    subst hm
    simp [classifyMessage, h1]
  · intro m hm h1 h2
    subst hm
    simp [classifyMessage, h1, h2]
  · intro m hm h1 h2 h3
    subst hm
    simp [classifyMessage, h1, h2, h3]
  · intro m hm h1 h2 h3
    subst hm
    simp [classifyMessage, h1, h2, h3]

/-- Witness for claim C2: the four injected failure kinds produce their
four taxonomy messages from a state with a prior error. -/
theorem claim2_witness :
    (fetchSentiment errState "Wheat" Ctx.India false
        (FetchOutcome.failure (some "invalid API_KEY supplied"))).error =
      some "Gemini API Key is missing or invalid." ∧
    (fetchSentiment errState "Wheat" Ctx.India false
        (FetchOutcome.failure (some "fetch failed"))).error =
      some "Network error: Unable to reach the AI service." ∧
    (fetchSentiment errState "Wheat" Ctx.India false
        (FetchOutcome.failure (some "status 429"))).error =
      some "Rate limit exceeded. Please wait." ∧
    (fetchSentiment errState "Wheat" Ctx.India false
        (FetchOutcome.failure (some "quota weirdness"))).error =
      some "Error: quota weirdness" := by
  refine ⟨?_, ?_, ?_, ?_⟩
  · have h := claim2_foreground_failure_classification errState "Wheat"
      Ctx.India (some "invalid API_KEY supplied")
    exact h.1.trans (congrArg some
      (h.2.2.2.2.1 "invalid API_KEY supplied" rfl (by decide)))
  · have h := claim2_foreground_failure_classification errState "Wheat"
      Ctx.India (some "fetch failed")
    exact h.1.trans (congrArg some
      (h.2.2.2.2.2.1 "fetch failed" rfl (by decide) (by decide)))
  · have h := claim2_foreground_failure_classification errState "Wheat"
      Ctx.India (some "status 429")
    exact h.1.trans (congrArg some
      (h.2.2.2.2.2.2.1 "status 429" rfl (by decide) (by decide) (by decide)))
  · have h := claim2_foreground_failure_classification errState "Wheat"
      Ctx.India (some "quota weirdness")
    exact h.1.trans (congrArg some
      (h.2.2.2.2.2.2.2 "quota weirdness" rfl (by decide) (by decide)
        (by decide)))

/- ---------------------------------------------------------------------
   Claim C3.
   --------------------------------------------------------------------- -/

/-- Claim C3: a successful dispatch writes exactly the slot at the key of
its (commodity, context) pair and leaves every other slot unchanged, and
a failing dispatch leaves the whole cache unchanged, for foreground and
non-foreground dispatches alike. -/
theorem claim3_cache_write_discipline (s : AppState) (c : String) (ctx : Ctx)
    (pre : Bool) (d : SentimentData) (e : Option String) :
    (fetchSentiment s c ctx pre (FetchOutcome.success d)).sentimentData
      (entityKey c ctx) = some d ∧
    (∀ k, k ≠ entityKey c ctx →
      (fetchSentiment s c ctx pre (FetchOutcome.success d)).sentimentData k =
        s.sentimentData k) ∧
    (fetchSentiment s c ctx pre (FetchOutcome.failure e)).sentimentData =
      s.sentimentData := by
  refine ⟨?_, ?_, ?_⟩
  · rw [fetchSentiment_cache_success]
    simp [cacheInsert]
  · intro k hk
    rw [fetchSentiment_cache_success]
    simp [cacheInsert, hk]
  · rw [fetchSentiment_cache_failure]

/-- Witness for claim C3: a successful Wheat-India dispatch populates its
own slot and leaves the Sugar-India slot empty. -/
theorem claim3_witness :
    (fetchSentiment initialState "Wheat" Ctx.India false
        (FetchOutcome.success sampleData)).sentimentData
      (entityKey "Wheat" Ctx.India) = some sampleData ∧
    "Sugar-India" ≠ entityKey "Wheat" Ctx.India ∧
    (fetchSentiment initialState "Wheat" Ctx.India false
        (FetchOutcome.success sampleData)).sentimentData "Sugar-India" =
      initialState.sentimentData "Sugar-India" := by
  have h := claim3_cache_write_discipline initialState "Wheat" Ctx.India false
    sampleData none
  exact ⟨h.1, by decide, h.2.1 "Sugar-India" (by decide)⟩

/- ---------------------------------------------------------------------
   Claim C9.
   --------------------------------------------------------------------- -/

/-- Claim C9: a foreground dispatch sets the in-flight flag and clears the
error before the external call is issued, and the in-flight flag is false
once the dispatch completes, on success and on failure alike; a
non-foreground dispatch leaves the in-flight flag at its prior value, both
before the call and after completion. -/
theorem claim9_loading_discipline (s : AppState) (c : String) (ctx : Ctx)
    (o : FetchOutcome) :
    (fetchStart s false).loading = true ∧
    (fetchStart s false).error = none ∧
    (fetchStart s true).error = none ∧
    (fetchSentiment s c ctx false o).loading = false ∧
    (fetchStart s true).loading = s.loading ∧
    (fetchSentiment s c ctx true o).loading = s.loading := by
  refine ⟨?_, ?_, ?_, ?_, ?_, ?_⟩ <;> cases o <;>
    simp [fetchSentiment, fetchStart, fetchResolve, fetchFinally]

/- ---------------------------------------------------------------------
   Claim C4.
   --------------------------------------------------------------------- -/

/-- Claim C4: the cursor starts at 0, every tick replaces it by its
successor modulo the commodity count and so keeps it inside the index
range, no other transition moves it outside the range, the tick issues a
non-foreground dispatch for the commodity at the new cursor, and any run
of exactly as many consecutive ticks as there are commodities dispatches
every commodity exactly once. -/
theorem claim4_round_robin (s : AppState) (o : FetchOutcome)
    (os : List FetchOutcome) (st : Step) :
    (tick s o).1.refreshIndex = (s.refreshIndex + 1) % COMMODITIES.length ∧
    (tick s o).1.refreshIndex < COMMODITIES.length ∧
    (tick s o).2 =
      ⟨COMMODITIES.getD ((s.refreshIndex + 1) % COMMODITIES.length) "",
       s.context, true⟩ ∧
    (tick s o).1.loading = s.loading ∧
    initialState.refreshIndex = 0 ∧
    ((step s st).refreshIndex = s.refreshIndex ∨
      (step s st).refreshIndex < COMMODITIES.length) ∧
    (os.length = COMMODITIES.length →
      ((runTicks s os).2.map DispatchCall.commodity).Perm COMMODITIES) ∧
    (os.length = COMMODITIES.length → ∀ c ∈ COMMODITIES,
      ((runTicks s os).2.map DispatchCall.commodity).count c = 1) := by
  refine ⟨tick_cursor s o, ?_, tick_call s o, ?_, rfl, ?_, ?_, ?_⟩
  · rw [tick_cursor]
    simp only [commodities_length]
    omega
  · simp [tick]
  · cases st with
    | dispatch c ctx pre o2 => exact Or.inl (fetchSentiment_refreshIndex ..)
    | click c o2 =>
      refine Or.inl ?_
      by_cases h : s.sentimentData (entityKey c s.context) = none <;>
        simp [step, handleCommodityClick, h]
    | setCtx ctx => exact Or.inl rfl
    | deselect => exact Or.inl rfl
    | toggleDriver idx => exact Or.inl rfl
    | bgTick o2 =>
      refine Or.inr ?_
      show (tick s o2).1.refreshIndex < COMMODITIES.length
      rw [tick_cursor]
      simp only [commodities_length]
      omega
  · exact runTicks_commodities_perm s os
  · intro h c hc
    rw [(runTicks_commodities_perm s os h).count_eq]
    revert hc
    revert c
    decide

/-- Witness for claim C4: five consecutive all-failing ticks from the
initial state dispatch a permutation of the commodity list, and each
commodity exactly once. -/
theorem claim4_witness :
    (List.replicate 5 (FetchOutcome.failure none)).length =
      COMMODITIES.length ∧
    ((runTicks initialState
        (List.replicate 5 (FetchOutcome.failure none))).2.map
        DispatchCall.commodity).Perm COMMODITIES ∧
    "Wheat" ∈ COMMODITIES ∧
    ((runTicks initialState
        (List.replicate 5 (FetchOutcome.failure none))).2.map
        DispatchCall.commodity).count "Wheat" = 1 := by
  have h := claim4_round_robin initialState (FetchOutcome.failure none)
    (List.replicate 5 (FetchOutcome.failure none)) Step.deselect
  exact ⟨by decide, h.2.2.2.2.2.2.1 (by decide), by decide,
    h.2.2.2.2.2.2.2 (by decide) "Wheat" (by decide)⟩

/- ---------------------------------------------------------------------
   Claim C5.
   --------------------------------------------------------------------- -/

/-- Claim C5: one run of the prefetch effect issues exactly one dispatch
per commodity, in commodity-list order, all non-foreground and all under
the given context, regardless of how many of the calls fail; the loop
never touches the in-flight flag, the selection or the context. -/
theorem claim5_prefetch_driver (s : AppState) (ctx : Ctx)
    (f : Nat → FetchOutcome) :
    (warmAll s ctx f).2 = COMMODITIES.map (fun c => ⟨c, ctx, true⟩) ∧
    (warmAll s ctx f).2.length = COMMODITIES.length ∧
    (∀ call ∈ (warmAll s ctx f).2,
      call.isPrefetch = true ∧ call.ctx = ctx) ∧
    (warmAll s ctx f).1.loading = s.loading ∧
    (warmAll s ctx f).1.selectedCommodity = s.selectedCommodity ∧
    (warmAll s ctx f).1.context = s.context := by
  refine ⟨warmList_log ctx f COMMODITIES 0 s, ?_, ?_,
    warmList_loading ctx f COMMODITIES 0 s,
    warmList_selectedCommodity ctx f COMMODITIES 0 s,
    warmList_context ctx f COMMODITIES 0 s⟩
  · show (warmList ctx f COMMODITIES 0 s).2.length = COMMODITIES.length
    rw [warmList_log, List.length_map]
  · intro call hc
    have hlog : (warmAll s ctx f).2 = COMMODITIES.map (fun c => ⟨c, ctx, true⟩) :=
      warmList_log ctx f COMMODITIES 0 s
    rw [hlog, List.mem_map] at hc
    obtain ⟨c, _, rfl⟩ := hc
    exact ⟨rfl, rfl⟩

/-- Witness for claim C5: an all-failing prefetch run from the initial
state still logs all five commodities in order, and its Wheat call is a
non-foreground India call. -/
theorem claim5_witness :
    (warmAll initialState Ctx.India (fun _ => FetchOutcome.failure none)).2 =
      COMMODITIES.map (fun c => ⟨c, Ctx.India, true⟩) ∧
    (⟨"Wheat", Ctx.India, true⟩ : DispatchCall) ∈
      (warmAll initialState Ctx.India (fun _ => FetchOutcome.failure none)).2 ∧
    ((⟨"Wheat", Ctx.India, true⟩ : DispatchCall).isPrefetch = true ∧
      (⟨"Wheat", Ctx.India, true⟩ : DispatchCall).ctx = Ctx.India) := by
  have h := claim5_prefetch_driver initialState Ctx.India
    (fun _ => FetchOutcome.failure none)
  have hmem : (⟨"Wheat", Ctx.India, true⟩ : DispatchCall) ∈
      (warmAll initialState Ctx.India (fun _ => FetchOutcome.failure none)).2 := by
    rw [h.1]
    decide
  exact ⟨h.1, hmem, h.2.2.1 _ hmem⟩

/- ---------------------------------------------------------------------
   Claim C6.
   --------------------------------------------------------------------- -/

/-- Claim C6: clicking a commodity selects it and resets the
expanded-driver state, issues a foreground dispatch under the current
context exactly when the cache slot for the pair is empty, and on a cache
hit changes nothing else and serves the cached record as the current
data. -/
theorem claim6_selection (s : AppState) (c : String) (o : FetchOutcome) :
    (handleCommodityClick s c o).1.selectedCommodity = some c ∧
    (handleCommodityClick s c o).1.expandedDriver = none ∧
    ((handleCommodityClick s c o).2.isSome = true ↔
      s.sentimentData (entityKey c s.context) = none) ∧
    (s.sentimentData (entityKey c s.context) = none →
      (handleCommodityClick s c o).2 = some ⟨c, s.context, false⟩) ∧
    (∀ d, s.sentimentData (entityKey c s.context) = some d →
      (handleCommodityClick s c o).2 = none ∧
      (handleCommodityClick s c o).1 =
        { s with selectedCommodity := some c, expandedDriver := none } ∧
      currentData (handleCommodityClick s c o).1 = some d) := by
  by_cases h : s.sentimentData (entityKey c s.context) = none
  · refine ⟨?_, ?_, ?_, ?_, ?_⟩
    · simp [handleCommodityClick, h]
    · simp [handleCommodityClick, h]
    · simp [handleCommodityClick, h]
    · intro _
      simp [handleCommodityClick, h]
    · intro d hd
      rw [h] at hd
      cases hd
  · refine ⟨?_, ?_, ?_, ?_, ?_⟩
    · simp [handleCommodityClick, h]
    · simp [handleCommodityClick, h]
    · simp [handleCommodityClick, h]
    · intro h2
      exact absurd h2 h
    · intro d hd
      refine ⟨?_, ?_, ?_⟩ <;> simp [handleCommodityClick, h, currentData, hd]

/-- Witness for claim C6: a click from the empty initial state issues the
foreground Wheat-India dispatch; a click from a state whose Wheat-India
slot is cached issues nothing and serves the cached record. -/
theorem claim6_witness :
    (handleCommodityClick initialState "Wheat" (FetchOutcome.failure none)).2 =
      some ⟨"Wheat", Ctx.India, false⟩ ∧
    (handleCommodityClick cachedState "Wheat" (FetchOutcome.failure none)).2 =
      none ∧
    currentData
      (handleCommodityClick cachedState "Wheat" (FetchOutcome.failure none)).1 =
      some sampleData := by
  have h1 := claim6_selection initialState "Wheat" (FetchOutcome.failure none)
  have h2 := claim6_selection cachedState "Wheat" (FetchOutcome.failure none)
  have hhit : cachedState.sentimentData (entityKey "Wheat" cachedState.context) =
      some sampleData := by decide
  exact ⟨h1.2.2.2.1 (by decide), (h2.2.2.2.2 sampleData hhit).1,
    (h2.2.2.2.2 sampleData hhit).2.2⟩

/- ---------------------------------------------------------------------
   Claim C7.
   --------------------------------------------------------------------- -/

/-- Claim C7: after any primitive transition a cache slot holds either its
previous value or the payload of a successful dispatch whose key is that
slot, so an occupied slot is never emptied; a context switch leaves the
whole cache untouched, and the prefetch loop and any tick run also never
empty an occupied slot. -/
theorem claim7_cache_persistence (s : AppState) (st : Step) (k : String)
    (ctx : Ctx) (f : Nat → FetchOutcome) (os : List FetchOutcome) :
    ((step s st).sentimentData k =
      match stepKeyWrite s st k with
      | some d => some d
      | none => s.sentimentData k) ∧
    (s.sentimentData k ≠ none → (step s st).sentimentData k ≠ none) ∧
    ((step s (Step.setCtx ctx)).sentimentData = s.sentimentData) ∧
    (s.sentimentData k ≠ none →
      (warmAll s ctx f).1.sentimentData k ≠ none) ∧
    (s.sentimentData k ≠ none →
      (runTicks s os).1.sentimentData k ≠ none) := by
  have heq : (step s st).sentimentData k =
      match stepKeyWrite s st k with
      | some d => some d
      | none => s.sentimentData k := by
    cases st with
    | dispatch c ctx2 pre o =>
      cases o with
      | success d =>
        show (fetchSentiment s c ctx2 pre (FetchOutcome.success d)).sentimentData
          k = _
        rw [fetchSentiment_cache_success]
        by_cases hk : k = entityKey c ctx2 <;>
          simp [cacheInsert, stepKeyWrite, hk]
      | failure e =>
        show (fetchSentiment s c ctx2 pre (FetchOutcome.failure e)).sentimentData
          k = _
        rw [fetchSentiment_cache_failure]
        simp [stepKeyWrite]
    | click c o =>
      by_cases hmiss : s.sentimentData (entityKey c s.context) = none
      · cases o with
        | success d =>
          by_cases hk : k = entityKey c s.context <;>
            simp [step, handleCommodityClick, hmiss, stepKeyWrite, hk,
              cacheInsert]
        | failure e =>
          simp [step, handleCommodityClick, hmiss, stepKeyWrite]
      · cases o <;> simp [step, handleCommodityClick, hmiss, stepKeyWrite]
    | setCtx ctx2 => simp [step, stepKeyWrite]
    | deselect => simp [step, stepKeyWrite]
    | toggleDriver idx => simp [step, stepKeyWrite]
    | bgTick o =>
      cases o with
      | success d =>
        show (tick s (FetchOutcome.success d)).1.sentimentData k = _
        rw [tick_cache]
        simp only [stepKeyWrite, cacheInsert]
        by_cases hk : k = entityKey
            (COMMODITIES.getD ((s.refreshIndex + 1) % COMMODITIES.length) "")
            s.context
        · rw [if_pos hk, if_pos hk]
        · rw [if_neg hk, if_neg hk]
      | failure e =>
        show (tick s (FetchOutcome.failure e)).1.sentimentData k = _
        rw [tick_cache]
        simp [stepKeyWrite]
  refine ⟨heq, ?_, rfl, warmList_cache_mono ctx f k COMMODITIES 0 s,
    runTicks_cache_mono k os s⟩
  · intro h
    rw [heq]
    cases hw : stepKeyWrite s st k <;> simp [h]

/-- Witness for claim C7: the cached Wheat-India entry survives a context
switch to Global and a run of five failing ticks. -/
theorem claim7_witness :
    cachedState.sentimentData "Wheat-India" ≠ none ∧
    (step cachedState (Step.setCtx Ctx.Global)).sentimentData "Wheat-India" ≠
      none ∧
    (runTicks cachedState
        (List.replicate 5 (FetchOutcome.failure none))).1.sentimentData
      "Wheat-India" ≠ none := by
  have h := claim7_cache_persistence cachedState (Step.setCtx Ctx.Global)
    "Wheat-India" Ctx.Global (fun _ => FetchOutcome.failure none)
    (List.replicate 5 (FetchOutcome.failure none))
  have hne : cachedState.sentimentData "Wheat-India" ≠ none := by decide
  exact ⟨hne, h.2.1 hne, h.2.2.2.2 hne⟩

/- ---------------------------------------------------------------------
   Claim C8.
   --------------------------------------------------------------------- -/

/-- Claim C8, as stated, is false at a concrete input: a response whose
payload is type-correct but carries a historical score of 150 is stored
in the cache unchanged by a successful foreground dispatch, so the stored
record does not keep its scores inside the interval from -100 to 100 for
every possible response. -/
theorem claim8_counterexample :
    (fetchSentiment initialState "Wheat" Ctx.India false
        (FetchOutcome.success (getCommoditySentiment badResponse))).sentimentData
      (entityKey "Wheat" Ctx.India) =
      some (getCommoditySentiment badResponse) ∧
    (getCommoditySentiment badResponse).historical =
      some ⟨150, "Extremely Bullish", "Off the chart."⟩ ∧
    scoreInRange (getCommoditySentiment badResponse).historical = false := by
  refine ⟨?_, rfl, by decide⟩
  rw [fetchSentiment_cache_success]
  simp [cacheInsert]

/-- Claim C8 (amended): a successful dispatch stores the parsed response
payload unchanged, with no validation: the three horizon sub-records of
the stored record are exactly those of the payload, so they are present
with scores inside the interval from -100 to 100 precisely when the
response supplies them that way; a response with no body text yields a
record with no historical sub-record at all. -/
theorem claim8_amended_no_validation (t : ParsedData)
    (cands : Option (List Candidate)) (s : AppState) (c : String) (ctx : Ctx)
    (pre : Bool) :
    (fetchSentiment s c ctx pre
        (FetchOutcome.success
          (getCommoditySentiment ⟨some t, cands⟩))).sentimentData
      (entityKey c ctx) = some (getCommoditySentiment ⟨some t, cands⟩) ∧
    (getCommoditySentiment ⟨some t, cands⟩).historical = t.historical ∧
    (getCommoditySentiment ⟨some t, cands⟩).current = t.current ∧
    (getCommoditySentiment ⟨some t, cands⟩).longTerm = t.longTerm ∧
    (getCommoditySentiment ⟨some t, cands⟩).drivers = t.drivers ∧
    horizonsOk (getCommoditySentiment ⟨some t, cands⟩) = payloadOk t ∧
    (getCommoditySentiment ⟨none, cands⟩).historical = none := by
  refine ⟨?_, rfl, rfl, rfl, rfl, rfl, rfl⟩
  rw [fetchSentiment_cache_success]
  simp [cacheInsert]

/- ---------------------------------------------------------------------
   Claim C10.
   --------------------------------------------------------------------- -/

/-- Claim C10: the sources list of a returned record is empty whenever the
response has no candidates, an empty candidate list, no grounding
metadata on its first candidate, or no grounding chunks; otherwise it is
the chunk list mapped through the per-chunk conversion, which substitutes
the default title for a chunk with no web record or no title and the
default url for a missing uri. -/
theorem claim10_sources_extraction (t : Option ParsedData) (cand : Candidate)
    (gm : GroundingMeta) (chunks : List GroundingChunk)
    (rest : List Candidate) (ti ur : Option String) :
    (getCommoditySentiment ⟨t, none⟩).sources = [] ∧
    (getCommoditySentiment ⟨t, some []⟩).sources = [] ∧
    (cand.groundingMetadata = none →
      (getCommoditySentiment ⟨t, some (cand :: rest)⟩).sources = []) ∧
    (gm.groundingChunks = none →
      (getCommoditySentiment ⟨t, some (⟨some gm⟩ :: rest)⟩).sources = []) ∧
    (getCommoditySentiment ⟨t, some (⟨some ⟨some chunks⟩⟩ :: rest)⟩).sources =
      chunks.map chunkSource ∧
    chunkSource ⟨none⟩ = ⟨"Source", "#"⟩ ∧
    chunkSource ⟨some ⟨none, ur⟩⟩ = ⟨"Source", orDefault ur "#"⟩ ∧
    chunkSource ⟨some ⟨ti, none⟩⟩ = ⟨orDefault ti "Source", "#"⟩ := by
  refine ⟨rfl, rfl, ?_, ?_, rfl, rfl, ?_, ?_⟩
  · intro h
    simp [getCommoditySentiment, extractSources, h]
  · intro h
    simp [getCommoditySentiment, extractSources, h]
  · simp [chunkSource, orDefault]
  · simp [chunkSource, orDefault]

/-- Witness for claim C10: a candidate with no metadata and a metadata
record with no chunks both yield the empty sources list, and a single
chunk with no web record yields the default citation. -/
theorem claim10_witness :
    (getCommoditySentiment ⟨none, some [⟨none⟩]⟩).sources = [] ∧
    (getCommoditySentiment ⟨none, some [⟨some ⟨none⟩⟩]⟩).sources = [] ∧
    (getCommoditySentiment
        ⟨none, some [⟨some ⟨some [⟨none⟩]⟩⟩]⟩).sources =
      [⟨"Source", "#"⟩] := by
  have h := claim10_sources_extraction none ⟨none⟩ ⟨none⟩ [⟨none⟩] [] none none
  refine ⟨h.2.2.1 rfl, h.2.2.2.1 rfl, ?_⟩
  rw [h.2.2.2.2.1]
  decide

end SentimentApp
